import Mathlib

/-!
Verification of the GSP route layer (`src/gsp.py`) of the UK PV national GSP
API.  The file embeds the six route handlers of `gsp.py` shallowly: the
external collaborators (the database-access functions of `database.py`, the
`normalize` method of the external data-model library) are an abstract
environment `Env`, side effects are explicit event traces, and exceptions are
`Except` values.  Handlers are translated statement by statement from
`gsp.py`; parts of the repository that are not among the included sources
(`database.py`, `cache.py`) are modelled from the specification and marked as
such in their doc comments.
-/

/-- A forecast value of the external data-model library: a target time paired
with a predicted generation figure.  Times are modelled as epoch numbers. -/
structure ForecastValue where
  target_time : Nat
  expected_power_generation_megawatts : Int
deriving DecidableEq, Repr

/-- A forecast for one GSP: its id and its list of forecast values. -/
structure Forecast where
  gsp_id : Int
  forecast_values : List ForecastValue
deriving DecidableEq, Repr

/-- A collection of forecasts for all GSPs (`ManyForecasts`). -/
structure ManyForecasts where
  forecasts : List Forecast
deriving DecidableEq, Repr

/-- A single real-time generation measurement (`GSPYield`). -/
structure GSPYield where
  datetime_utc : Nat
  solar_generation_kw : Int
deriving DecidableEq, Repr

/-- A GSP location paired with its yield series (`LocationWithGSPYields`). -/
structure LocationWithGSPYields where
  gsp_id : Int
  gsp_yields : List GSPYield
deriving DecidableEq, Repr

/-- The union type `Union[Forecast, List[ForecastValue]]` returned by the
per-GSP forecast route: either a full forecast object or a bare list of
forecast values. -/
inductive ForecastResult where
  | full (forecast : Forecast)
  | valuesOnly (forecast_values : List ForecastValue)
deriving DecidableEq, Repr

/-- An error raised by a database query (an exception in the Python code). -/
structure DbErr where
  code : Nat
deriving DecidableEq, Repr

/-- A call made by a handler into the database-query layer, recording the
exact arguments passed. -/
inductive QueryCall where
  | forecastsAll (session : Nat) (historic : Bool)
  | latestForecastValues (session : Nat) (gsp_id : Int) (forecast_horizon_minutes : Option Int)
  | truthAll (session : Nat) (regime : Option String)
  | truthGsp (session : Nat) (gsp_id : Int) (regime : Option String)
deriving DecidableEq, Repr

/-- An observable side effect of a handler: the audit row written by
`save_api_call_to_db` (the only write), or a read-only database query. -/
inductive Event where
  | apiCallSaved (session : Nat) (user : Nat) (request : Nat)
  | dbQuery (q : QueryCall)
deriving DecidableEq, Repr

/-- Is this event the audit-log write performed by `save_api_call_to_db`? -/
def Event.isAudit : Event → Bool
  | .apiCallSaved _ _ _ => true
  | .dbQuery _ => false

/-- Is this event a read-only database query? -/
def Event.isQuery : Event → Bool
  | .apiCallSaved _ _ _ => false
  | .dbQuery _ => true

/-- Number of audit rows written in a trace. -/
def countAudits (tr : List Event) : Nat :=
  tr.countP Event.isAudit

/-- Number of database-query invocations in a trace. -/
def countQueries (tr : List Event) : Nat :=
  tr.countP Event.isQuery

/-- Every database query in the trace happens after the call has been
recorded by `save_api_call_to_db`: no query event occurs before the first
audit event. -/
def allQueriesAfterAudit : List Event → Bool
  | [] => true
  | Event.apiCallSaved _ _ _ :: _ => true
  | Event.dbQuery _ :: _ => false

/-- The trace writes exactly one audit row and performs otherwise only
read-only queries. -/
def exactlyOneAuditOnlyReads (tr : List Event) : Bool :=
  countAudits tr == 1 && tr.all fun e => e.isAudit || e.isQuery

/-- The external collaborators consumed by `gsp.py`: the four query functions
of the database layer and the `normalize` method of the external data-model
library.  Sessions are identified by numbers; queries may fail with an
exception, modelled as `Except`. -/
structure Env where
  get_forecasts_from_database :
    Nat → Bool → Except DbErr ManyForecasts
  normalize :
    ManyForecasts → ManyForecasts
  get_latest_forecast_values_for_a_specific_gsp_from_database :
    Nat → Int → Option Int → Except DbErr ForecastResult
  get_truth_values_for_all_gsps_from_database :
    Nat → Option String → Except DbErr (List LocationWithGSPYields)
  get_truth_values_for_a_specific_gsp_from_database :
    Nat → Int → Option String → Except DbErr (List GSPYield)

/-- Handler of `GET /forecast/all` (`gsp.py`, `get_all_available_forecasts`):
records the call, queries all forecasts with the `historic` flag (default
`True` when the query parameter is omitted, i.e. `none`), normalizes and
returns them.  The result is the event trace paired with the response. -/
def get_all_available_forecasts (env : Env) (request : Nat)
    (historic : Option Bool) (session : Nat) (user : Nat) :
    List Event × Except DbErr ManyForecasts :=
  let historic := historic.getD true
  ([Event.apiCallSaved session user request,
    Event.dbQuery (QueryCall.forecastsAll session historic)],
   match env.get_forecasts_from_database session historic with
   | Except.error e => Except.error e
   | Except.ok forecasts => Except.ok (env.normalize forecasts))

/-- Handler of `GET /{gsp_id}/forecast` (`gsp.py`,
`get_forecasts_for_a_specific_gsp`): records the call, then returns the
latest forecast values for the GSP, forwarding `forecast_horizon_minutes`
(`none` when the query parameter is unset). -/
def get_forecasts_for_a_specific_gsp (env : Env) (request : Nat)
    (gsp_id : Int) (session : Nat) (forecast_horizon_minutes : Option Int)
    (user : Nat) : List Event × Except DbErr ForecastResult :=
  ([Event.apiCallSaved session user request,
    Event.dbQuery (QueryCall.latestForecastValues session gsp_id forecast_horizon_minutes)],
   env.get_latest_forecast_values_for_a_specific_gsp_from_database
     session gsp_id forecast_horizon_minutes)

/-- Handler of the deprecated alias `GET /forecast/{gsp_id}` (`gsp.py`,
`get_forecasts_for_a_specific_gsp_old_route`): delegates to the canonical
handler with identical parameters. -/
def get_forecasts_for_a_specific_gsp_old_route (env : Env) (request : Nat)
    (gsp_id : Int) (session : Nat) (forecast_horizon_minutes : Option Int)
    (user : Nat) : List Event × Except DbErr ForecastResult :=
  get_forecasts_for_a_specific_gsp env request gsp_id session
    forecast_horizon_minutes user

/-- Handler of `GET /pvlive/all` (`gsp.py`, `get_truths_for_all_gsps`):
records the call, then returns the truth values for all GSPs, forwarding
`regime` (`none` when the query parameter is unset). -/
def get_truths_for_all_gsps (env : Env) (request : Nat)
    (regime : Option String) (session : Nat) (user : Nat) :
    List Event × Except DbErr (List LocationWithGSPYields) :=
  ([Event.apiCallSaved session user request,
    Event.dbQuery (QueryCall.truthAll session regime)],
   env.get_truth_values_for_all_gsps_from_database session regime)

/-- Handler of `GET /{gsp_id}/pvlive` (`gsp.py`,
`get_truths_for_a_specific_gsp`): records the call, then returns the truth
values for the GSP, forwarding `regime`. -/
def get_truths_for_a_specific_gsp (env : Env) (request : Nat)
    (gsp_id : Int) (regime : Option String) (session : Nat) (user : Nat) :
    List Event × Except DbErr (List GSPYield) :=
  ([Event.apiCallSaved session user request,
    Event.dbQuery (QueryCall.truthGsp session gsp_id regime)],
   env.get_truth_values_for_a_specific_gsp_from_database session gsp_id regime)

/-- Handler of the deprecated alias `GET /pvlive/{gsp_id}` (`gsp.py`,
`get_truths_for_a_specific_gsp_old_route`): delegates to the canonical
handler with identical parameters. -/
def get_truths_for_a_specific_gsp_old_route (env : Env) (request : Nat)
    (gsp_id : Int) (regime : Option String) (session : Nat) (user : Nat) :
    List Event × Except DbErr (List GSPYield) :=
  get_truths_for_a_specific_gsp env request gsp_id regime session user

/-- Modelled from the spec: the `cache_response` decorator lives in
`cache.py`, which is not among the included sources.  Per the spec it wraps a
handler to short-circuit repeated identical requests: on a cache hit the
stored response is returned before the handler body (and hence before the
audit-log call) runs; on a miss the handler body runs. -/
def cache_response {α : Type} (store : Nat → Option α)
    (handler : Nat → List Event × α) (key : Nat) : List Event × α :=
  match store key with
  | some v => ([], v)
  | none => handler key

/-- A list of forecast values is ordered by ascending target time. -/
def sortedForecastValues : List ForecastValue → Bool
  | [] => true
  | [_] => true
  | a :: b :: rest =>
      decide (a.target_time ≤ b.target_time) && sortedForecastValues (b :: rest)

/-- A list of yields is ordered by ascending (target) time. -/
def sortedGSPYields : List GSPYield → Bool
  | [] => true
  | [_] => true
  | a :: b :: rest =>
      decide (a.datetime_utc ≤ b.datetime_utc) && sortedGSPYields (b :: rest)

/-- The per-GSP forecast response is ordered by ascending target time. -/
def ForecastResult.sortedByTargetTime : ForecastResult → Bool
  | .full f => sortedForecastValues f.forecast_values
  | .valuesOnly vs => sortedForecastValues vs

/-- Modelled from the spec: the contract of the database layer
(`database.py`, not among the included sources) — every forecast or yield
collection it returns is ordered by target time. -/
def Env.SortedOutputs (env : Env) : Prop :=
  (∀ s g h r,
      env.get_latest_forecast_values_for_a_specific_gsp_from_database s g h
        = Except.ok r → r.sortedByTargetTime = true) ∧
  (∀ s reg ls,
      env.get_truth_values_for_all_gsps_from_database s reg = Except.ok ls →
        ∀ l ∈ ls, sortedGSPYields l.gsp_yields = true) ∧
  (∀ s g reg ys,
      env.get_truth_values_for_a_specific_gsp_from_database s g reg
        = Except.ok ys → sortedGSPYields ys = true)

/-- A concrete sample list of forecast values, ordered by target time. -/
def fvSample : List ForecastValue :=
  [⟨1, 5⟩, ⟨2, 7⟩]

/-- A concrete sample list of yields, ordered by time. -/
def yieldsSample : List GSPYield :=
  [⟨1, 3⟩, ⟨4, 9⟩]

/-- A concrete environment whose query functions always succeed with fixed,
ordered data. -/
def envSample : Env where
  get_forecasts_from_database := fun _ _ => Except.ok ⟨[⟨7, fvSample⟩]⟩
  normalize := fun m => m
  get_latest_forecast_values_for_a_specific_gsp_from_database :=
    fun _ _ _ => Except.ok (ForecastResult.valuesOnly fvSample)
  get_truth_values_for_all_gsps_from_database :=
    fun _ _ => Except.ok [⟨1, yieldsSample⟩]
  get_truth_values_for_a_specific_gsp_from_database :=
    fun _ _ _ => Except.ok yieldsSample

theorem envSample_sortedOutputs : envSample.SortedOutputs := by
  refine ⟨?_, ?_, ?_⟩
  · intro s g h r hr
    injection hr with h1
    subst h1
    decide
  · intro s reg ls hl
    injection hl with h1
    subst h1
    decide
  · intro s g reg ys hy
    injection hy with h1
    subst h1
    decide

/-- Claim C1: the deprecated alias handlers return exactly the same result
(same response and same side effects) as their canonical counterparts for
every choice of parameters: `get_forecasts_for_a_specific_gsp_old_route`
equals `get_forecasts_for_a_specific_gsp`, and
`get_truths_for_a_specific_gsp_old_route` equals
`get_truths_for_a_specific_gsp`. -/
theorem alias_routes_equal_canonical (env : Env) (request : Nat)
    (gsp_id : Int) (session : Nat) (forecast_horizon_minutes : Option Int)
    (regime : Option String) (user : Nat) :
    get_forecasts_for_a_specific_gsp_old_route env request gsp_id session
        forecast_horizon_minutes user
      = get_forecasts_for_a_specific_gsp env request gsp_id session
          forecast_horizon_minutes user
    ∧ get_truths_for_a_specific_gsp_old_route env request gsp_id regime
        session user
      = get_truths_for_a_specific_gsp env request gsp_id regime session
          user :=
  ⟨rfl, rfl⟩

/-- Claim C5: `GET /forecast/all` returns the result of
`get_forecasts_from_database(session, historic)` after applying
`normalize()`, the `historic` flag defaults to `true` when omitted, and the
handler writes exactly one audit row. -/
theorem forecast_all_normalized (env : Env) (request : Nat)
    (historic : Option Bool) (session : Nat) (user : Nat) :
    (get_all_available_forecasts env request historic session user).2
      = (env.get_forecasts_from_database session (historic.getD true)).map
          env.normalize
    ∧ (get_all_available_forecasts env request none session user).2
      = (env.get_forecasts_from_database session true).map env.normalize
    ∧ countAudits
        (get_all_available_forecasts env request historic session user).1
      = 1 := by
  refine ⟨?_, ?_, rfl⟩
  · cases h : env.get_forecasts_from_database session (historic.getD true) <;>
      simp [get_all_available_forecasts, h, Except.map]
  · cases h : env.get_forecasts_from_database session true <;>
      simp [get_all_available_forecasts, h, Except.map]

/-- Claim C7: `GET /{gsp_id}/forecast` returns exactly the value of
`get_latest_forecast_values_for_a_specific_gsp_from_database(session,
gsp_id, forecast_horizon_minutes)`, forwarding `forecast_horizon_minutes`
unchanged (`none` when the parameter is unset), as both the response and the
recorded query call show. -/
theorem forecast_gsp_horizon_passthrough (env : Env) (request : Nat)
    (gsp_id : Int) (session : Nat) (forecast_horizon_minutes : Option Int)
    (user : Nat) :
    (get_forecasts_for_a_specific_gsp env request gsp_id session
        forecast_horizon_minutes user).2
      = env.get_latest_forecast_values_for_a_specific_gsp_from_database
          session gsp_id forecast_horizon_minutes
    ∧ (get_forecasts_for_a_specific_gsp env request gsp_id session
        forecast_horizon_minutes user).1
      = [Event.apiCallSaved session user request,
         Event.dbQuery (QueryCall.latestForecastValues session gsp_id
           forecast_horizon_minutes)] :=
  ⟨rfl, rfl⟩

/-- Claim C9: `GET /pvlive/all` and `GET /{gsp_id}/pvlive` return the
database layer's result completely unmodified: no reordering, filtering or
normalization is applied in this layer. -/
theorem truths_passthrough (env : Env) (request : Nat) (gsp_id : Int)
    (regime : Option String) (session : Nat) (user : Nat) :
    (get_truths_for_all_gsps env request regime session user).2
      = env.get_truth_values_for_all_gsps_from_database session regime
    ∧ (get_truths_for_a_specific_gsp env request gsp_id regime session
        user).2
      = env.get_truth_values_for_a_specific_gsp_from_database session
          gsp_id regime :=
  ⟨rfl, rfl⟩

/-- Claim C10: for every endpoint, two requests differing only in the
authenticated user identity produce identical response bodies: the user
value influences only the audit-log row, never the returned data. -/
theorem responses_independent_of_user (env : Env) (request : Nat)
    (historic : Option Bool) (gsp_id : Int)
    (forecast_horizon_minutes : Option Int) (regime : Option String)
    (session u1 u2 : Nat) :
    (get_all_available_forecasts env request historic session u1).2
      = (get_all_available_forecasts env request historic session u2).2
    ∧ (get_forecasts_for_a_specific_gsp env request gsp_id session
        forecast_horizon_minutes u1).2
      = (get_forecasts_for_a_specific_gsp env request gsp_id session
          forecast_horizon_minutes u2).2
    ∧ (get_forecasts_for_a_specific_gsp_old_route env request gsp_id session
        forecast_horizon_minutes u1).2
      = (get_forecasts_for_a_specific_gsp_old_route env request gsp_id
          session forecast_horizon_minutes u2).2
    ∧ (get_truths_for_all_gsps env request regime session u1).2
      = (get_truths_for_all_gsps env request regime session u2).2
    ∧ (get_truths_for_a_specific_gsp env request gsp_id regime session
        u1).2
      = (get_truths_for_a_specific_gsp env request gsp_id regime session
          u2).2
    ∧ (get_truths_for_a_specific_gsp_old_route env request gsp_id regime
        session u1).2
      = (get_truths_for_a_specific_gsp_old_route env request gsp_id regime
          session u2).2 :=
  ⟨rfl, rfl, rfl, rfl, rfl, rfl⟩

/-- Claim C2: under the database layer's ordering contract, every successful
call to `GET /{gsp_id}/forecast`, `GET /pvlive/all` and `GET /{gsp_id}/pvlive`
returns a collection ordered by ascending target time. -/
theorem endpoint_results_sorted (env : Env) (hs : env.SortedOutputs) :
    (∀ request gsp_id session forecast_horizon_minutes user r,
        (get_forecasts_for_a_specific_gsp env request gsp_id session
            forecast_horizon_minutes user).2 = Except.ok r →
          r.sortedByTargetTime = true)
    ∧ (∀ request regime session user ls,
        (get_truths_for_all_gsps env request regime session user).2
            = Except.ok ls →
          ∀ l ∈ ls, sortedGSPYields l.gsp_yields = true)
    ∧ (∀ request gsp_id regime session user ys,
        (get_truths_for_a_specific_gsp env request gsp_id regime session
            user).2 = Except.ok ys →
          sortedGSPYields ys = true) := by
  obtain ⟨h1, h2, h3⟩ := hs
  refine ⟨?_, ?_, ?_⟩
  · intro request gsp_id session forecast_horizon_minutes user r hr
    exact h1 _ _ _ _ hr
  · intro request regime session user ls hl
    exact h2 _ _ _ hl
  · intro request gsp_id regime session user ys hy
    exact h3 _ _ _ _ hy

theorem endpoint_results_sorted_witness :
    sortedGSPYields yieldsSample = true
    ∧ ForecastResult.sortedByTargetTime
        (ForecastResult.valuesOnly fvSample) = true :=
  ⟨(endpoint_results_sorted envSample envSample_sortedOutputs).2.2
      0 1 (some "in-day") 0 0 yieldsSample rfl,
   (endpoint_results_sorted envSample envSample_sortedOutputs).1
      0 1 0 none 0 (ForecastResult.valuesOnly fvSample) rfl⟩

/-- Claim C6: in every one of the six handlers, the audit-log write performed
by `save_api_call_to_db` happens strictly before the database query: no query
event ever precedes the first audit event in the trace. -/
theorem audit_recorded_before_query (env : Env) (request : Nat)
    (historic : Option Bool) (gsp_id : Int)
    (forecast_horizon_minutes : Option Int) (regime : Option String)
    (session user : Nat) :
    allQueriesAfterAudit
        (get_all_available_forecasts env request historic session user).1
      = true
    ∧ allQueriesAfterAudit
        (get_forecasts_for_a_specific_gsp env request gsp_id session
          forecast_horizon_minutes user).1
      = true
    ∧ allQueriesAfterAudit
        (get_forecasts_for_a_specific_gsp_old_route env request gsp_id
          session forecast_horizon_minutes user).1
      = true
    ∧ allQueriesAfterAudit
        (get_truths_for_all_gsps env request regime session user).1
      = true
    ∧ allQueriesAfterAudit
        (get_truths_for_a_specific_gsp env request gsp_id regime session
          user).1
      = true
    ∧ allQueriesAfterAudit
        (get_truths_for_a_specific_gsp_old_route env request gsp_id regime
          session user).1
      = true :=
  ⟨rfl, rfl, rfl, rfl, rfl, rfl⟩

/-- Claim C8: every handler invokes its database query exactly once per
request, and an exception raised by the query propagates out of the handler
unchanged: there is no retry, no local recovery and no catch branch. -/
theorem query_once_errors_propagate (env : Env) (request : Nat)
    (historic : Option Bool) (gsp_id : Int)
    (forecast_horizon_minutes : Option Int) (regime : Option String)
    (session user : Nat) (e : DbErr) :
    countQueries
        (get_all_available_forecasts env request historic session user).1
      = 1
    ∧ countQueries
        (get_forecasts_for_a_specific_gsp env request gsp_id session
          forecast_horizon_minutes user).1
      = 1
    ∧ countQueries
        (get_forecasts_for_a_specific_gsp_old_route env request gsp_id
          session forecast_horizon_minutes user).1
      = 1
    ∧ countQueries
        (get_truths_for_all_gsps env request regime session user).1
      = 1
    ∧ countQueries
        (get_truths_for_a_specific_gsp env request gsp_id regime session
          user).1
      = 1
    ∧ countQueries
        (get_truths_for_a_specific_gsp_old_route env request gsp_id regime
          session user).1
      = 1
    ∧ (env.get_forecasts_from_database session (historic.getD true)
          = Except.error e →
        (get_all_available_forecasts env request historic session user).2
          = Except.error e)
    ∧ (env.get_latest_forecast_values_for_a_specific_gsp_from_database
          session gsp_id forecast_horizon_minutes = Except.error e →
        (get_forecasts_for_a_specific_gsp env request gsp_id session
            forecast_horizon_minutes user).2 = Except.error e
        ∧ (get_forecasts_for_a_specific_gsp_old_route env request gsp_id
            session forecast_horizon_minutes user).2 = Except.error e)
    ∧ (env.get_truth_values_for_all_gsps_from_database session regime
          = Except.error e →
        (get_truths_for_all_gsps env request regime session user).2
          = Except.error e)
    ∧ (env.get_truth_values_for_a_specific_gsp_from_database session gsp_id
          regime = Except.error e →
        (get_truths_for_a_specific_gsp env request gsp_id regime session
            user).2 = Except.error e
        ∧ (get_truths_for_a_specific_gsp_old_route env request gsp_id
            regime session user).2 = Except.error e) := by
  refine ⟨rfl, rfl, rfl, rfl, rfl, rfl, ?_, ?_, ?_, ?_⟩
  · intro h
    simp [get_all_available_forecasts, h]
  · intro h
    exact ⟨h, h⟩
  · intro h
    exact h
  · intro h
    exact ⟨h, h⟩

/-- A concrete environment all of whose query functions raise. -/
def envErr : Env where
  get_forecasts_from_database := fun _ _ => Except.error ⟨7⟩
  normalize := fun m => m
  get_latest_forecast_values_for_a_specific_gsp_from_database :=
    fun _ _ _ => Except.error ⟨7⟩
  get_truth_values_for_all_gsps_from_database :=
    fun _ _ => Except.error ⟨7⟩
  get_truth_values_for_a_specific_gsp_from_database :=
    fun _ _ _ => Except.error ⟨7⟩

theorem query_once_errors_propagate_witness :
    countQueries (get_all_available_forecasts envErr 0 none 0 0).1 = 1
    ∧ (get_all_available_forecasts envErr 0 none 0 0).2
        = Except.error ⟨7⟩
    ∧ (get_forecasts_for_a_specific_gsp envErr 0 1 0 none 0).2
        = Except.error ⟨7⟩
    ∧ (get_truths_for_all_gsps envErr 0 none 0 0).2 = Except.error ⟨7⟩
    ∧ (get_truths_for_a_specific_gsp envErr 0 1 none 0 0).2
        = Except.error ⟨7⟩ :=
  ⟨(query_once_errors_propagate envErr 0 none 1 none none 0 0 ⟨7⟩).1,
   (query_once_errors_propagate envErr 0 none 1 none none 0 0
      ⟨7⟩).2.2.2.2.2.2.1 rfl,
   ((query_once_errors_propagate envErr 0 none 1 none none 0 0
      ⟨7⟩).2.2.2.2.2.2.2.1 rfl).1,
   (query_once_errors_propagate envErr 0 none 1 none none 0 0
      ⟨7⟩).2.2.2.2.2.2.2.2.1 rfl,
   ((query_once_errors_propagate envErr 0 none 1 none none 0 0
      ⟨7⟩).2.2.2.2.2.2.2.2.2 rfl).1⟩

/-- Claim C3 (counterexample): a request whose regime value is "bogus" — a
value outside the enumeration composed of "in-day" and "day-after" — does
reach the database query carrying exactly that value, on both truth
endpoints: the handler layer performs no restriction. -/
theorem invalid_regime_reaches_query :
    (get_truths_for_all_gsps envSample 0 (some "bogus") 0 0).1
      = [Event.apiCallSaved 0 0 0,
         Event.dbQuery (QueryCall.truthAll 0 (some "bogus"))]
    ∧ (get_truths_for_a_specific_gsp envSample 0 1 (some "bogus") 0 0).1
      = [Event.apiCallSaved 0 0 0,
         Event.dbQuery (QueryCall.truthGsp 0 1 (some "bogus"))]
    ∧ List.contains ["in-day", "day-after"] "bogus" = false :=
  ⟨rfl, rfl, by decide⟩

/-- Claim C3 (amended): the handlers of `GET /pvlive/all` and
`GET /{gsp_id}/pvlive` forward the `regime` parameter to the database query
unchanged for every value, including values outside the enumeration composed
of "in-day" and "day-after"; this layer performs no restriction of `regime`
(absence of `regime` is forwarded as `none`, meaning most recent). -/
theorem regime_forwarded_unrestricted (env : Env) (request : Nat)
    (gsp_id : Int) (regime : Option String) (session user : Nat) :
    (get_truths_for_all_gsps env request regime session user).1
      = [Event.apiCallSaved session user request,
         Event.dbQuery (QueryCall.truthAll session regime)]
    ∧ (get_truths_for_all_gsps env request regime session user).2
      = env.get_truth_values_for_all_gsps_from_database session regime
    ∧ (get_truths_for_a_specific_gsp env request gsp_id regime session
        user).1
      = [Event.apiCallSaved session user request,
         Event.dbQuery (QueryCall.truthGsp session gsp_id regime)]
    ∧ (get_truths_for_a_specific_gsp env request gsp_id regime session
        user).2
      = env.get_truth_values_for_a_specific_gsp_from_database session
          gsp_id regime :=
  ⟨rfl, rfl, rfl, rfl⟩

/-- A cache store holding a response for every key: every lookup is a hit. -/
def storeHit : Nat → Option (Except DbErr (List LocationWithGSPYields)) :=
  fun _ => some (Except.ok [])

/-- Claim C4 (counterexample): a call served by the cache layer from a hit
writes zero audit rows, not one; the same call on a miss writes one. -/
theorem cache_hit_writes_no_audit :
    countAudits (cache_response storeHit
        (fun r => get_truths_for_all_gsps envSample r none 0 0) 0).1 = 0
    ∧ countAudits (cache_response (fun _ => none)
        (fun r => get_truths_for_all_gsps envSample r none 0 0) 0).1 = 1 :=
  ⟨rfl, rfl⟩

/-- Claim C4 (amended): every call that executes a handler body — a cache
miss — writes exactly one audit row, and that audit row is the only write
this layer performs (every other event is a read-only query), for all six
endpoints; a call served from the cache (hit) does not execute the handler
body and so writes no audit row. -/
theorem one_audit_per_executed_call {α : Type} (env : Env) (request : Nat)
    (historic : Option Bool) (gsp_id : Int)
    (forecast_horizon_minutes : Option Int) (regime : Option String)
    (session user : Nat) (store : Nat → Option α)
    (handler : Nat → List Event × α) (v : α) :
    exactlyOneAuditOnlyReads
        (get_all_available_forecasts env request historic session user).1
      = true
    ∧ exactlyOneAuditOnlyReads
        (get_forecasts_for_a_specific_gsp env request gsp_id session
          forecast_horizon_minutes user).1
      = true
    ∧ exactlyOneAuditOnlyReads
        (get_forecasts_for_a_specific_gsp_old_route env request gsp_id
          session forecast_horizon_minutes user).1
      = true
    ∧ exactlyOneAuditOnlyReads
        (get_truths_for_all_gsps env request regime session user).1
      = true
    ∧ exactlyOneAuditOnlyReads
        (get_truths_for_a_specific_gsp env request gsp_id regime session
          user).1
      = true
    ∧ exactlyOneAuditOnlyReads
        (get_truths_for_a_specific_gsp_old_route env request gsp_id regime
          session user).1
      = true
    ∧ (store request = some v →
        cache_response store handler request = ([], v))
    ∧ (store request = none →
        cache_response store handler request = handler request) := by
  refine ⟨rfl, rfl, rfl, rfl, rfl, rfl, ?_, ?_⟩
  · intro h
    simp [cache_response, h]
  · intro h
    simp [cache_response, h]

theorem one_audit_per_executed_call_witness :
    exactlyOneAuditOnlyReads
        (get_truths_for_all_gsps envSample 0 none 0 0).1 = true
    ∧ cache_response storeHit
        (fun r => get_truths_for_all_gsps envSample r none 0 0) 0
      = ([], Except.ok [])
    ∧ cache_response (fun _ => none)
        (fun r => get_truths_for_all_gsps envSample r none 0 0) 0
      = get_truths_for_all_gsps envSample 0 none 0 0 :=
  ⟨(one_audit_per_executed_call envSample 0 none 1 none none 0 0 storeHit
      (fun r => get_truths_for_all_gsps envSample r none 0 0)
      (Except.ok [])).2.2.2.1,
   (one_audit_per_executed_call envSample 0 none 1 none none 0 0 storeHit
      (fun r => get_truths_for_all_gsps envSample r none 0 0)
      (Except.ok [])).2.2.2.2.2.2.1 rfl,
   (one_audit_per_executed_call envSample 0 none 1 none none 0 0
      (fun _ => none)
      (fun r => get_truths_for_all_gsps envSample r none 0 0)
      (Except.ok [])).2.2.2.2.2.2.2 rfl⟩
